import Mathlib

/-!
Verification development for mogp_emulator/GaussianProcessGPU.py.

The file under src is a thin Python wrapper around the compiled native library
libgpgpu (its DenseGP_GPU object holds the training data and performs all of the
numerical work: kernel evaluation, Cholesky factorization, posterior and
prediction).  The wrapper's own logic — argument validation, the nugget policy
state machine, the implicit-refit comparison, the shape of the values returned
to the caller — is embedded below over exact rationals.  The native numerical
routines are not in the sources, so they are abstracted as an arbitrary backend
(structure GPUBackend) together with a small spec-modelled state (structure
DenseGP) recording what the wrapper can observe of the native object.
-/

/-- Python exception values the wrapper can raise: ValueError and TypeError with
their message, and AssertionError from a failed assert statement. -/
inductive PyErr
  | valueError (msg : String)
  | typeError (msg : String)
  | assertionError
deriving DecidableEq

/-- Modelled from the spec: the libgpgpu.nugget_type enum, constructed in the
wrapper as nugget_type(0) for adaptive, nugget_type(1) for fit and
nugget_type(2) for fixed (lines 138, 140, 147). -/
inductive NuggetType
  | adaptive
  | fit
  | fixed
deriving DecidableEq

/-- Dynamically typed Python values that can reach the mean, kernel and nugget
arguments of the wrapper: None, booleans, integers, floats (as exact rationals),
strings, sequences (only their length matters, for truthiness), a
SquaredExponential kernel instance, a Matern52 kernel instance, and a mean
function object. -/
inductive PyObj
  | none
  | pybool (b : Bool)
  | pyint (n : Int)
  | pyfloat (q : ℚ)
  | pystr (s : String)
  | pylist (len : Nat)
  | sqExpKernel
  | matern52Kernel
  | meanBase
deriving DecidableEq

/-- Python truthiness of the values above: None, False, zero numbers, empty
strings and empty sequences are falsy; class instances are truthy. -/
def PyObj.truthy : PyObj → Bool
  | .none => false
  | .pybool b => b
  | .pyint n => n != 0
  | .pyfloat q => q != 0
  | .pystr s => s != ""
  | .pylist len => len != 0
  | .sqExpKernel => true
  | .matern52Kernel => true
  | .meanBase => true

/-- Python float() conversion on the non-string values the nugget setter can
pass to it (the setter skips conversion for str and float, so this is only ever
applied to the remaining constructors): bool and int convert to the
corresponding float, while None, sequences and extension objects without a
float conversion raise TypeError, modelled as Option.none. -/
def PyObj.toFloatQ : PyObj → Option ℚ
  | .pybool b => some (if b then 1 else 0)
  | .pyint n => some (n : ℚ)
  | .pyfloat q => some q
  | _ => Option.none

/-- Message of the ValueError raised for a truthy mean argument (line 42). -/
def meanMsg : String := "GPU implementation requires mean to be None"

/-- Message of the ValueError raised for a disallowed kernel string (line 48). -/
def kernelStrMsg : String := "GPU implementation requires kernel to be SquaredExponential"

/-- Message of the ValueError raised for a truthy non-SquaredExponential kernel
object (line 50). -/
def kernelObjMsg : String := "GPU implementation requires kernel to be SquaredExponential()"

/-- Message of the TypeError raised when float() conversion of the nugget
argument fails (line 134). -/
def nugTypeMsg : String := "nugget parameter must be a string or a non-negative float"

/-- Message of the ValueError raised for a nugget string other than adaptive or
fit (line 142); the original text lists the three policy names. -/
def nugStrMsg : String := "nugget must be a float set to adaptive, fit, or fixed"

/-- Message of the ValueError raised for a negative numeric nugget (line 146). -/
def nugNegMsg : String := "nugget parameter must be non-negative"

/-- The nugget setter, lines 128-148 of GaussianProcessGPU.py.  A non-str
non-float argument is first converted with float(), a TypeError from the
conversion being re-raised as the setter's own TypeError; the string values
adaptive and fit select those policies and store None as the nugget value; any
other string raises ValueError; a negative float raises ValueError; a
non-negative float selects the fixed policy and is stored. -/
def set_nugget_val : PyObj → Except PyErr (NuggetType × Option ℚ)
  | .pystr s =>
      if s = "adaptive" then Except.ok (NuggetType.adaptive, Option.none)
      else if s = "fit" then Except.ok (NuggetType.fit, Option.none)
      else Except.error (PyErr.valueError nugStrMsg)
  | .pyfloat q =>
      if q < 0 then Except.error (PyErr.valueError nugNegMsg)
      else Except.ok (NuggetType.fixed, some q)
  | v =>
      match v.toFloatQ with
      | some q =>
          if q < 0 then Except.error (PyErr.valueError nugNegMsg)
          else Except.ok (NuggetType.fixed, some q)
      | Option.none => Except.error (PyErr.typeError nugTypeMsg)

/-- Modelled from the spec: the native libgpgpu.DenseGP_GPU object (the compiled
library is not part of the sources).  Per the spec it owns the training data
and, on update_theta, caches theta and recomputes the Cholesky factorization;
the wrapper-observable state kept here is the training data, the theta cached
by the most recent update_theta call (absent before the first one), the nugget
type last used, and a counter of update_theta calls that makes a refit
observable as a state change.  The factorization numerics themselves live in
the abstract backend below. -/
structure DenseGP where
  inputs : List (List ℚ)
  targets : List ℚ
  theta_dev : Option (List ℚ)
  last_nugget : Option NuggetType
  n_fits : Nat
deriving DecidableEq

/-- Construction of the native object from the training data (line 54): no
theta is cached yet and no update has happened. -/
def DenseGP.make (inputs : List (List ℚ)) (targets : List ℚ) : DenseGP :=
  ⟨inputs, targets, Option.none, Option.none, 0⟩

/-- Native data_length(): the number of training examples. -/
def DenseGP.data_length (g : DenseGP) : Nat := g.inputs.length

/-- Native D(): the input dimension. -/
def DenseGP.dim (g : DenseGP) : Nat := (g.inputs.headD []).length

/-- Modelled from the spec: native n_params() is D + 1 for the
squared-exponential kernel (D log-length-scales plus one log-variance). -/
def DenseGP.n_params (g : DenseGP) : Nat := g.dim + 1

/-- Modelled from the spec: native update_theta(theta, nugget_type) caches the
supplied theta and recomputes the factorization for it. -/
def DenseGP.update_theta (g : DenseGP) (θ : List ℚ) (nt : NuggetType) : DenseGP :=
  { g with theta_dev := some θ, last_nugget := some nt, n_fits := g.n_fits + 1 }

/-- Modelled from the spec: native get_theta(buf) writes the cached theta into
the caller-supplied buffer; before any update the buffer comes back as the
caller allocated it. -/
def DenseGP.get_theta (g : DenseGP) (buf : List ℚ) : List ℚ :=
  g.theta_dev.getD buf

/-- The Python emulator object: the kernel attribute (line 51), the private
nugget-type and nugget-value attributes written by the nugget setter (lines
138-148), and the native DenseGP_GPU handle (line 54). -/
structure GaussianProcessGPU where
  kernel : PyObj
  nug_type : NuggetType
  nug_val : Option ℚ
  densegp : DenseGP
deriving DecidableEq

/-- True when a list of rows forms a proper 2-D array: every row has the length
of the first (np.array of such a list has ndim 2, which the constructor and
predict assert). -/
def ndim2_ok (rows : List (List ℚ)) : Bool :=
  rows.all fun r => r.length == (rows.headD []).length

/-- Kernel-argument validation in the constructor, lines 44-50: a string must
be exactly SquaredExponential (and is replaced by a fresh instance); a
non-string that is truthy and not a SquaredExponential instance raises
ValueError; everything else — a SquaredExponential instance or any falsy value,
None included — is kept as is. -/
def resolve_kernel : PyObj → Except PyErr PyObj
  | .pystr s =>
      if s = "SquaredExponential" then Except.ok PyObj.sqExpKernel
      else Except.error (PyErr.valueError kernelStrMsg)
  | k =>
      if k.truthy = true ∧ k ≠ PyObj.sqExpKernel then Except.error (PyErr.valueError kernelObjMsg)
      else Except.ok k

/-- The constructor, lines 30-54.  Inputs are taken already in (n, D) matrix
form (the source also promotes a flat vector to a single column, a path no
claim touches); the asserts on array rank and matching lengths come first, then
the truthiness test on mean, kernel resolution, the nugget setter, and finally
construction of the native object.  Python defaults: mean None, kernel a
SquaredExponential instance, nugget the string adaptive — an omitted argument
is modelled by passing its default. -/
def gp_init (inputs : List (List ℚ)) (targets : List ℚ) (mean kernel nugget : PyObj) :
    Except PyErr GaussianProcessGPU :=
  if ndim2_ok inputs then
    if targets.length = inputs.length then
      if mean.truthy then Except.error (PyErr.valueError meanMsg)
      else
        match resolve_kernel kernel with
        | Except.error e => Except.error e
        | Except.ok k =>
            match set_nugget_val nugget with
            | Except.error e => Except.error e
            | Except.ok nv => Except.ok ⟨k, nv.1, nv.2, DenseGP.make inputs targets⟩
    else Except.error PyErr.assertionError
  else Except.error PyErr.assertionError

/-- The nugget property setter applied to an existing emulator (the same code
path as in the constructor, lines 128-148): on success the private nugget-type
and nugget-value attributes are replaced. -/
def set_nugget (gp : GaussianProcessGPU) (v : PyObj) : Except PyErr GaussianProcessGPU :=
  (set_nugget_val v).map fun nv => { gp with nug_type := nv.1, nug_val := nv.2 }

/-- The nugget property getter (lines 124-126): returns the stored value, which
is None under the adaptive and fit policies and the stored float under fixed. -/
def GaussianProcessGPU.nugget (gp : GaussianProcessGPU) : Option ℚ := gp.nug_val

/-- The nugget_type property (lines 110-122): the label of the current policy,
obtained in the source by string-splitting the native enum repr. -/
def nugget_type_label : NuggetType → String
  | NuggetType.adaptive => "adaptive"
  | NuggetType.fit => "fit"
  | NuggetType.fixed => "fixed"

/-- Emulator accessor n (lines 76-84). -/
def GaussianProcessGPU.n (gp : GaussianProcessGPU) : Nat := gp.densegp.data_length

/-- Emulator accessor D (lines 86-94). -/
def GaussianProcessGPU.dim (gp : GaussianProcessGPU) : Nat := gp.densegp.dim

/-- Emulator accessor n_params (lines 96-108). -/
def GaussianProcessGPU.n_params (gp : GaussianProcessGPU) : Nat := gp.densegp.n_params

/-- The theta property getter, lines 150-161: allocate a zeros buffer of length
n_params, let native get_theta write into it, and return the buffer.  The
Python return value is always an ndarray — modelled as some of the buffer
contents — and is never None, whether or not a fit has happened. -/
def theta_get (gp : GaussianProcessGPU) : Option (List ℚ) :=
  some (gp.densegp.get_theta (List.replicate gp.n_params 0))

/-- fit(theta), lines 186-194: delegates to native update_theta with the
current nugget type. -/
def GaussianProcessGPU.fit (gp : GaussianProcessGPU) (θ : List ℚ) : GaussianProcessGPU :=
  { gp with densegp := gp.densegp.update_theta θ gp.nug_type }

/-- The theta property setter, lines 163-174: its body is self.fit(theta). -/
def theta_set (gp : GaussianProcessGPU) (θ : List ℚ) : GaussianProcessGPU :=
  gp.fit θ

/-- Exact rational stand-in for the float literal 1.e-10 used as rtol at lines
207 and 228. -/
def np_rtol : ℚ := 1 / 10 ^ 10

/-- Exact rational stand-in for the float literal 1.e-15 used as atol at lines
207 and 228. -/
def np_atol : ℚ := 1 / 10 ^ 15

/-- np.allclose on the equal-length 1-D arrays the wrapper compares: every
elementwise absolute difference is bounded by atol plus rtol times the
magnitude of the second array.  Numpy broadcasting of mismatched shapes is
outside the model, hence the length conjunct; the theorems below only invoke
this on equal-length vectors. -/
def allclose (a b : List ℚ) (rtol atol : ℚ) : Bool :=
  (a.length == b.length) && (a.zip b).all fun p => decide (|p.1 - p.2| ≤ atol + rtol * |p.2|)

/-- The implicit-refit test shared by logposterior (line 207) and logpost_deriv
(line 228): self.theta is None or not np.allclose(theta, self.theta,
rtol=1.e-10, atol=1.e-15). -/
def refit_needed (gp : GaussianProcessGPU) (θ : List ℚ) : Bool :=
  (theta_get gp).isNone || !(allclose θ ((theta_get gp).getD []) np_rtol np_atol)

/-- The emulator state after the implicit-refit step of logposterior and
logpost_deriv: fit(theta) is called exactly when the refit test fires,
otherwise the state — cached factorization included — is left untouched. -/
def implicit_refit (gp : GaussianProcessGPU) (θ : List ℚ) : GaussianProcessGPU :=
  if refit_needed gp θ then gp.fit θ else gp

/-- Numerical outputs of the native library: the log-posterior, its gradient,
and the batched predictive means and variances.  They are computed by compiled
code outside the sources, so the embedding abstracts them as an arbitrary
backend; every theorem below holds for every backend.  The list arguments of
the two prediction fields model the caller-allocated zero buffers the wrapper
passes for in-place filling. -/
structure GPUBackend where
  logpost : DenseGP → ℚ
  dlogpost : DenseGP → List ℚ
  predictMeans : DenseGP → List (List ℚ) → List ℚ → List ℚ
  predictMeansVars : DenseGP → List (List ℚ) → List ℚ → List ℚ → List ℚ × List ℚ

/-- logposterior(theta), lines 196-210: refit if needed, then return the native
get_logpost value of the resulting state; the state is returned alongside to
make the mutation explicit. -/
def logposterior (B : GPUBackend) (gp : GaussianProcessGPU) (θ : List ℚ) :
    GaussianProcessGPU × ℚ :=
  (implicit_refit gp θ, B.logpost (implicit_refit gp θ).densegp)

/-- logpost_deriv(theta), lines 212-233: assert the shape of theta, refit if
needed, then return the native gradient of the resulting state. -/
def logpost_deriv (B : GPUBackend) (gp : GaussianProcessGPU) (θ : List ℚ) :
    Except PyErr (GaussianProcessGPU × List ℚ) :=
  if θ.length = gp.n_params then
    Except.ok (implicit_refit gp θ, B.dlogpost (implicit_refit gp θ).densegp)
  else Except.error PyErr.assertionError

/-- logpost_hessian(theta), lines 235-248: the docstring promises an
(n_params, n_params) Hessian array but the body is a bare pass, so the Python
call raises nothing and returns None.  The Except layer records that no
exception is raised; the Option layer records the returned value None. -/
def logpost_hessian (_gp : GaussianProcessGPU) (_θ : List ℚ) :
    Except PyErr (Option (List (List ℚ))) :=
  Except.ok Option.none

/-- Modelled from the spec: PredictResult from mogp_emulator/GaussianProcess.py
(a repository file not under src) — the per-batch (mean, uncertainty,
derivative) triple returned by predict. -/
structure PredictResult where
  mean : List ℚ
  unc : List ℚ
  deriv : List ℚ
deriving DecidableEq

/-- Modelled from the spec: indexing a PredictResult at 0 extracts the mean
array (the source comment at lines 277-279 calls it the zeroth component for
the mean prediction). -/
def PredictResult.item0 (r : PredictResult) : List ℚ := r.mean

/-- The testing argument of predict: either a flat length-D vector or an
(m, D) matrix of m test points. -/
inductive TestInput
  | oneD (v : List ℚ)
  | twoD (rows : List (List ℚ))

/-- Lines 259-262 of predict: a flat vector is promoted to a one-row batch; a
matrix must be a proper 2-D array or the assert fails. -/
def reshape_testing : TestInput → Except PyErr (List (List ℚ))
  | TestInput.oneD v => Except.ok [v]
  | TestInput.twoD rows =>
      if ndim2_ok rows then Except.ok rows else Except.error PyErr.assertionError

/-- predict(testing, unc, deriv, include_nugget), lines 250-271.  The
before-fit guard is commented out in the source (lines 256-257), so no fitted
state is required.  Fresh zero arrays of length m are allocated for means,
variances and — rebinding the deriv argument at line 266 — for the derivative;
with unc the native variance batch call fills means and variances, without it
only the means are filled; include_nugget is accepted but never read. -/
def predict (B : GPUBackend) (gp : GaussianProcessGPU) (testing : TestInput)
    (unc _deriv _include_nugget : Bool) : Except PyErr PredictResult :=
  (reshape_testing testing).map fun t =>
    let m := t.length
    let means := List.replicate m (0 : ℚ)
    let variances := List.replicate m (0 : ℚ)
    let deriv : List ℚ := List.replicate m (0 : ℚ)
    if unc then
      let mv := B.predictMeansVars gp.densegp t means variances
      { mean := mv.1, unc := mv.2, deriv := deriv }
    else
      { mean := B.predictMeans gp.densegp t means, unc := variances, deriv := deriv }

/-- Calling the emulator object, lines 274-280: predict with unc and deriv both
False (include_nugget keeping its default False) followed by extraction of the
zeroth component. -/
def gp_call (B : GPUBackend) (gp : GaussianProcessGPU) (testing : TestInput) :
    Except PyErr (List ℚ) :=
  (predict B gp testing false false false).map PredictResult.item0

/-- The refit criterion in the words of the spec: the supplied theta is within
relative tolerance 1e-10 and absolute tolerance 1e-15 of the cached theta,
componentwise. -/
def withinTol (a b : List ℚ) : Prop :=
  a.length = b.length ∧ ∀ p ∈ a.zip b, |p.1 - p.2| ≤ 1 / 10 ^ 15 + 1 / 10 ^ 10 * |p.2|

instance (a b : List ℚ) : Decidable (withinTol a b) := by
  unfold withinTol
  infer_instance

/-- The kernel specifications the constructor rejects, in the words forced by
the code: a string other than SquaredExponential, or a truthy non-string value
that is not a SquaredExponential instance. -/
def kernelRejected : PyObj → Prop
  | PyObj.pystr s => s ≠ "SquaredExponential"
  | k => k.truthy = true ∧ k ≠ PyObj.sqExpKernel

/-- A concrete backend instance, used to evaluate the development on concrete
inputs: it returns the buffers unchanged and zero for the posterior. -/
def Bdemo : GPUBackend :=
  ⟨fun _ => 0, fun _ => [], fun _ _ buf => buf, fun _ _ bufM bufV => (bufM, bufV)⟩

/-- A freshly constructed emulator (inputs [[0]], targets [0], adaptive nugget)
on which no fit has occurred. -/
def gpDemoUnfit : GaussianProcessGPU :=
  ⟨PyObj.sqExpKernel, NuggetType.adaptive, Option.none, DenseGP.make [[0]] [0]⟩

/-- An emulator with two 1-D training points whose native state has cached the
hyperparameters [1, 2] from one fit. -/
def gpDemoFit : GaussianProcessGPU :=
  ⟨PyObj.sqExpKernel, NuggetType.adaptive, Option.none,
    ⟨[[0], [1]], [0, 1], some [1, 2], some NuggetType.adaptive, 1⟩⟩

/-- The emulator gpDemoUnfit after its nugget property is set to 3/2. -/
def gpDemoFixed : GaussianProcessGPU :=
  { gpDemoUnfit with nug_type := NuggetType.fixed, nug_val := some (3 / 2) }

/-- Helper: the wrapper allclose test at the numpy tolerances agrees with the
componentwise tolerance criterion withinTol. -/
theorem allclose_iff_withinTol (a b : List ℚ) :
    allclose a b np_rtol np_atol = true ↔ withinTol a b := by
  simp [allclose, withinTol, np_rtol, np_atol, List.all_eq_true]

/-- Helper: fit always changes the emulator state (the native update counter
increases), so a refit is observable. -/
theorem fit_ne_self (gp : GaussianProcessGPU) (θ : List ℚ) : gp.fit θ ≠ gp := by
  intro h
  have h2 : gp.densegp.n_fits + 1 = gp.densegp.n_fits :=
    congrArg (fun g => g.densegp.n_fits) h
  omega

/-- Helper: on an emulator whose native state caches theta, the theta property
returns exactly that cached vector. -/
theorem theta_get_of_cached (gp : GaussianProcessGPU) (θc : List ℚ)
    (hfit : gp.densegp.theta_dev = some θc) : theta_get gp = some θc := by
  simp [theta_get, DenseGP.get_theta, hfit]

/-- C1: the before-fit guard of predict is commented out in the source (lines
256-257), so on an emulator on which no successful fit has yet occurred,
predict is not rejected: for every backend, every flat testing input and every
flag combination it proceeds to the native prediction call and returns a
PredictResult.  This contradicts the claim, which requires an explicit error;
the spec itself calls the omission a defect. -/
theorem predict_before_fit_not_rejected (B : GPUBackend) (gp : GaussianProcessGPU)
    (v : List ℚ) (unc dv incl : Bool)
    (_hunfit : gp.densegp.theta_dev = Option.none) :
    ∃ r, predict B gp (TestInput.oneD v) unc dv incl = Except.ok r := by
  cases unc <;> exact ⟨_, rfl⟩

/-- C1 witness: a freshly constructed, never-fitted emulator answers a predict
call with a result instead of an error. -/
theorem predict_before_fit_not_rejected_witness :
    gpDemoUnfit.densegp.theta_dev = Option.none ∧
      ∃ r, predict Bdemo gpDemoUnfit (TestInput.oneD [0]) true false false = Except.ok r :=
  ⟨rfl, predict_before_fit_not_rejected Bdemo gpDemoUnfit [0] true false false rfl⟩

/-- C2: logpost_hessian (lines 235-248) has the bare body pass, so for every
emulator and every theta the Python call raises nothing and silently returns
None.  The never-a-numeric-array half of the claim holds, but there is no
explicit not-implemented signal, contradicting the claim and the docstring,
which promises an (n_params, n_params) array. -/
theorem logpost_hessian_silently_returns_none (gp : GaussianProcessGPU) (θ : List ℚ) :
    logpost_hessian gp θ = Except.ok Option.none := rfl

/-- C6: the theta property getter (lines 150-161) allocates a zeros buffer of
length n_params, lets native get_theta write into it, and returns the buffer,
so its Python value is always an ndarray — modelled as some — and never None,
even on an emulator on which no fit has yet occurred (where the buffer comes
back as allocated, all zeros).  This contradicts the claim of an absent value
before the first fit and makes the None-check at line 207 dead code. -/
theorem theta_getter_never_none_before_fit (gp : GaussianProcessGPU)
    (hunfit : gp.densegp.theta_dev = Option.none) :
    theta_get gp = some (List.replicate gp.n_params 0) ∧ theta_get gp ≠ Option.none := by
  constructor
  · simp [theta_get, DenseGP.get_theta, hunfit]
  · simp [theta_get]

/-- C6 witness: the never-fitted demo emulator has two hyperparameters and its
theta property reads back as the zeros array of length two, not None. -/
theorem theta_getter_never_none_before_fit_witness :
    gpDemoUnfit.densegp.theta_dev = Option.none ∧
      theta_get gpDemoUnfit = some [0, 0] ∧ theta_get gpDemoUnfit ≠ Option.none :=
  ⟨rfl, (theta_getter_never_none_before_fit gpDemoUnfit rfl).1,
    (theta_getter_never_none_before_fit gpDemoUnfit rfl).2⟩

/-- C7: the theta property setter (lines 163-174) has the body self.fit(theta),
so assigning to the theta property produces exactly the state change of a fit
call with the same argument. -/
theorem theta_setter_is_fit_alias (gp : GaussianProcessGPU) (θ : List ℚ) :
    theta_set gp θ = gp.fit θ := rfl

/-- C8: calling the emulator object (lines 274-280) runs
predict(testing, unc=False, deriv=False) and extracts the zeroth component of
the PredictResult, which is its mean array, so for every backend, emulator and
testing input the call returns exactly that mean array and nothing else. -/
theorem call_is_predict_mean_only (B : GPUBackend) (gp : GaussianProcessGPU)
    (t : TestInput) :
    gp_call B gp t = (predict B gp t false false false).map PredictResult.mean := rfl

/-- C9: predict (lines 250-271) rebinds its deriv argument to a fresh
np.zeros(m) array at line 266 and always places that array in the result, so
for every backend, emulator, m-row testing batch and flag combination the
derivative component of the result is a fresh length-m zeros array, present
even when deriv was requested as False. -/
theorem predict_deriv_always_fresh_zeros (B : GPUBackend) (gp : GaussianProcessGPU)
    (t : List (List ℚ)) (unc dv incl : Bool) (hshape : ndim2_ok t = true) :
    ∃ r, predict B gp (TestInput.twoD t) unc dv incl = Except.ok r ∧
      r.deriv = List.replicate t.length 0 := by
  have hres : reshape_testing (TestInput.twoD t) = Except.ok t := by
    simp [reshape_testing, hshape]
  cases unc with
  | false =>
      refine ⟨⟨B.predictMeans gp.densegp t (List.replicate t.length 0),
        List.replicate t.length 0, List.replicate t.length 0⟩, ?_, rfl⟩
      rw [predict, hres]
      rfl
  | true =>
      refine ⟨⟨(B.predictMeansVars gp.densegp t (List.replicate t.length 0)
          (List.replicate t.length 0)).1,
        (B.predictMeansVars gp.densegp t (List.replicate t.length 0)
          (List.replicate t.length 0)).2,
        List.replicate t.length 0⟩, ?_, rfl⟩
      rw [predict, hres]
      rfl

/-- C9 witness: a two-point prediction batch on the demo emulator, with deriv
requested as True, still carries the zeros derivative array of length two. -/
theorem predict_deriv_always_fresh_zeros_witness :
    ndim2_ok [[(0 : ℚ)], [1]] = true ∧
      ∃ r, predict Bdemo gpDemoUnfit (TestInput.twoD [[0], [1]]) true true false = Except.ok r ∧
        r.deriv = List.replicate 2 0 :=
  ⟨by decide,
    predict_deriv_always_fresh_zeros Bdemo gpDemoUnfit [[0], [1]] true true false (by decide)⟩

/-- C3: on a fitted emulator whose native state caches theta_c, both
logposterior and logpost_deriv trigger a refit — an observable fit(theta) state
change — exactly when the supplied theta differs from theta_c beyond relative
tolerance 1e-10 and absolute tolerance 1e-15; when theta is within tolerance
the emulator state, cached factorization included, is left unchanged.  Stated
for equal-length vectors of the asserted n_params length, the shapes the
wrapper compares. -/
theorem logposterior_refit_iff_beyond_tolerance (B : GPUBackend)
    (gp : GaussianProcessGPU) (θc θ : List ℚ)
    (hfit : gp.densegp.theta_dev = some θc)
    (hlen : θ.length = gp.n_params)
    (_hclen : θ.length = θc.length) :
    (((logposterior B gp θ).1 = gp) ↔ withinTol θ θc) ∧
    (¬ withinTol θ θc → (logposterior B gp θ).1 = gp.fit θ) ∧
    (((logpost_deriv B gp θ).map Prod.fst = Except.ok gp) ↔ withinTol θ θc) ∧
    (¬ withinTol θ θc → (logpost_deriv B gp θ).map Prod.fst = Except.ok (gp.fit θ)) := by
  have hcached : theta_get gp = some θc := theta_get_of_cached gp θc hfit
  have hne : gp.fit θ ≠ gp := fit_ne_self gp θ
  have hrefit : refit_needed gp θ = !(allclose θ θc np_rtol np_atol) := by
    simp [refit_needed, hcached]
  by_cases h : withinTol θ θc
  · have hb : allclose θ θc np_rtol np_atol = true := (allclose_iff_withinTol θ θc).mpr h
    have hs : implicit_refit gp θ = gp := by
      simp [implicit_refit, hrefit, hb]
    refine ⟨?_, fun hc => absurd h hc, ?_, fun hc => absurd h hc⟩
    · simp [logposterior, hs, h]
    · simp [logpost_deriv, hlen, hs, h, Except.map]
  · have hb : allclose θ θc np_rtol np_atol = false := by
      cases hb2 : allclose θ θc np_rtol np_atol with
      | false => rfl
      | true => exact absurd ((allclose_iff_withinTol θ θc).mp hb2) h
    have hs : implicit_refit gp θ = gp.fit θ := by
      simp [implicit_refit, hrefit, hb]
    refine ⟨?_, fun _ => ?_, ?_, fun _ => ?_⟩
    · simp [logposterior, hs, h, hne]
    · simp [logposterior, hs]
    · simp [logpost_deriv, hlen, hs, h, hne, Except.map]
    · simp [logpost_deriv, hlen, hs, Except.map]

/-- C3 witness: on the fitted demo emulator with cached theta [1, 2], querying
logposterior at the identical theta [1, 2] — within tolerance — leaves the
state unchanged. -/
theorem logposterior_refit_iff_beyond_tolerance_witness :
    gpDemoFit.densegp.theta_dev = some [1, 2] ∧
      withinTol [1, 2] [1, 2] ∧
      (logposterior Bdemo gpDemoFit [1, 2]).1 = gpDemoFit :=
  ⟨rfl, by norm_num [withinTol],
    (logposterior_refit_iff_beyond_tolerance Bdemo gpDemoFit [1, 2] [1, 2] rfl
      (by decide) rfl).1.mpr (by norm_num [withinTol])⟩

/-- Helper: the kernel-resolution step raises a ValueError exactly on the
kernel specifications in kernelRejected. -/
theorem resolve_kernel_err_iff (k : PyObj) :
    (∃ m, resolve_kernel k = Except.error (PyErr.valueError m)) ↔ kernelRejected k := by
  cases k with
  | pystr s =>
      by_cases hs : s = "SquaredExponential" <;>
        simp [resolve_kernel, kernelRejected, hs]
  | none => simp [resolve_kernel, kernelRejected, PyObj.truthy]
  | pybool b => cases b <;> simp [resolve_kernel, kernelRejected, PyObj.truthy]
  | pyint n =>
      by_cases hn : n = 0 <;> simp [resolve_kernel, kernelRejected, PyObj.truthy, hn]
  | pyfloat q =>
      by_cases hq : q = 0 <;> simp [resolve_kernel, kernelRejected, PyObj.truthy, hq]
  | pylist len =>
      by_cases hl : len = 0 <;> simp [resolve_kernel, kernelRejected, PyObj.truthy, hl]
  | sqExpKernel => simp [resolve_kernel, kernelRejected, PyObj.truthy]
  | matern52Kernel => simp [resolve_kernel, kernelRejected, PyObj.truthy]
  | meanBase => simp [resolve_kernel, kernelRejected, PyObj.truthy]

/-- Helper: the kernel-resolution step succeeds exactly on the kernel
specifications outside kernelRejected. -/
theorem resolve_kernel_ok_iff (k : PyObj) :
    (∃ k2, resolve_kernel k = Except.ok k2) ↔ ¬ kernelRejected k := by
  cases k with
  | pystr s =>
      by_cases hs : s = "SquaredExponential" <;>
        simp [resolve_kernel, kernelRejected, hs]
  | none => simp [resolve_kernel, kernelRejected, PyObj.truthy]
  | pybool b => cases b <;> simp [resolve_kernel, kernelRejected, PyObj.truthy]
  | pyint n =>
      by_cases hn : n = 0 <;> simp [resolve_kernel, kernelRejected, PyObj.truthy, hn]
  | pyfloat q =>
      by_cases hq : q = 0 <;> simp [resolve_kernel, kernelRejected, PyObj.truthy, hq]
  | pylist len =>
      by_cases hl : len = 0 <;> simp [resolve_kernel, kernelRejected, PyObj.truthy, hl]
  | sqExpKernel => simp [resolve_kernel, kernelRejected, PyObj.truthy]
  | matern52Kernel => simp [resolve_kernel, kernelRejected, PyObj.truthy]
  | meanBase => simp [resolve_kernel, kernelRejected, PyObj.truthy]

/-- C4 counterexample: the claim that construction fails for every non-None
mean and every kernel outside the squared-exponential family is false at
concrete inputs: mean = 0 is not None and kernel = 0 is not a
squared-exponential specification, yet both constructions succeed, because the
source tests truthiness (if mean, elif kernel and ...) rather than
non-None-ness, so falsy values slip through. -/
theorem gp_init_accepts_falsy_mean_and_kernel :
    (PyObj.pyint 0 ≠ PyObj.none) ∧
    gp_init [[0]] [0] (PyObj.pyint 0) PyObj.sqExpKernel (PyObj.pystr "adaptive") =
      Except.ok ⟨PyObj.sqExpKernel, NuggetType.adaptive, Option.none, DenseGP.make [[0]] [0]⟩ ∧
    gp_init [[0]] [0] PyObj.none (PyObj.pyint 0) (PyObj.pystr "adaptive") =
      Except.ok ⟨PyObj.pyint 0, NuggetType.adaptive, Option.none, DenseGP.make [[0]] [0]⟩ :=
  ⟨by decide, rfl, rfl⟩

/-- C4 amended: for well-shaped training data and a valid nugget argument,
construction fails — with a ValueError — exactly when the mean argument is
truthy, or, the mean being falsy, when the kernel argument is a string other
than SquaredExponential or a truthy non-string that is not a
SquaredExponential instance; in particular a SquaredExponential instance, the
string SquaredExponential, an omitted kernel and any falsy mean or kernel
value (None, 0, empty sequences) are accepted. -/
theorem gp_init_mean_kernel_validation (inputs : List (List ℚ)) (targets : List ℚ)
    (mean kernel nugget : PyObj)
    (hshape : ndim2_ok inputs = true)
    (hlen : targets.length = inputs.length)
    (hnug : ∃ nv, set_nugget_val nugget = Except.ok nv) :
    (∃ m, gp_init inputs targets mean kernel nugget = Except.error (PyErr.valueError m)) ↔
      (mean.truthy = true ∨ (mean.truthy = false ∧ kernelRejected kernel)) := by
  obtain ⟨nv, hnv⟩ := hnug
  cases hm : mean.truthy with
  | true => simp [gp_init, hshape, hlen, hm]
  | false =>
      by_cases hk : kernelRejected kernel
      · obtain ⟨m, hmk⟩ := (resolve_kernel_err_iff kernel).mpr hk
        simp [gp_init, hshape, hlen, hm, hmk, hk]
      · obtain ⟨k2, hk2⟩ := (resolve_kernel_ok_iff kernel).mpr hk
        simp [gp_init, hshape, hlen, hm, hk2, hnv, hk]

/-- C4 witness: with good data and an adaptive nugget, a Matern52 kernel
instance — truthy and not squared-exponential — makes construction fail with a
ValueError. -/
theorem gp_init_mean_kernel_validation_witness :
    ndim2_ok [[(0 : ℚ)]] = true ∧
      ∃ m, gp_init [[0]] [0] PyObj.none PyObj.matern52Kernel (PyObj.pystr "adaptive") =
        Except.error (PyErr.valueError m) :=
  ⟨by decide,
    (gp_init_mean_kernel_validation [[0]] [0] PyObj.none PyObj.matern52Kernel
      (PyObj.pystr "adaptive") (by decide) rfl ⟨_, rfl⟩).mpr
      (Or.inr ⟨rfl, by simp [kernelRejected, PyObj.truthy]⟩)⟩

/-- C5: for every numeric nugget argument — any value float() converts, with
conversion result q — a negative q makes both the nugget setter and emulator
construction fail with the invalid-argument ValueError, while a non-negative q
is accepted, selects the Fixed nugget policy, and stores q. -/
theorem nugget_sign_policy (v : PyObj) (q : ℚ) (inputs : List (List ℚ))
    (targets : List ℚ)
    (hv : v.toFloatQ = some q)
    (hshape : ndim2_ok inputs = true)
    (hlen : targets.length = inputs.length) :
    (q < 0 →
      set_nugget_val v = Except.error (PyErr.valueError nugNegMsg) ∧
      gp_init inputs targets PyObj.none PyObj.sqExpKernel v =
        Except.error (PyErr.valueError nugNegMsg)) ∧
    (0 ≤ q →
      set_nugget_val v = Except.ok (NuggetType.fixed, some q) ∧
      gp_init inputs targets PyObj.none PyObj.sqExpKernel v =
        Except.ok ⟨PyObj.sqExpKernel, NuggetType.fixed, some q,
          DenseGP.make inputs targets⟩) := by
  have hset : set_nugget_val v =
      (if q < 0 then Except.error (PyErr.valueError nugNegMsg)
       else Except.ok (NuggetType.fixed, some q)) := by
    cases v <;> simp_all [PyObj.toFloatQ, set_nugget_val]
  constructor
  · intro hq
    have h1 : set_nugget_val v = Except.error (PyErr.valueError nugNegMsg) := by
      simp [hset, hq]
    exact ⟨h1, by simp [gp_init, hshape, hlen, PyObj.truthy, resolve_kernel, h1]⟩
  · intro hq
    have h1 : set_nugget_val v = Except.ok (NuggetType.fixed, some q) := by
      simp [hset, not_lt.mpr hq]
    exact ⟨h1, by simp [gp_init, hshape, hlen, PyObj.truthy, resolve_kernel, h1]⟩

/-- C5 witness: the negative nugget -1 is rejected with the ValueError, and the
non-negative nugget 1/2 selects the Fixed policy storing 1/2. -/
theorem nugget_sign_policy_witness :
    PyObj.toFloatQ (PyObj.pyfloat (-1)) = some (-1) ∧
      set_nugget_val (PyObj.pyfloat (-1)) = Except.error (PyErr.valueError nugNegMsg) ∧
      set_nugget_val (PyObj.pyfloat (1 / 2)) = Except.ok (NuggetType.fixed, some (1 / 2)) :=
  ⟨rfl,
    ((nugget_sign_policy (PyObj.pyfloat (-1)) (-1) [[0]] [0] rfl (by decide) rfl).1
      (by norm_num)).1,
    ((nugget_sign_policy (PyObj.pyfloat (1 / 2)) (1 / 2) [[0]] [0] rfl (by decide) rfl).2
      (by norm_num)).1⟩

/-- C10: the nugget property setter accepts exactly the strings adaptive and
fit plus the values float() converts to a non-negative rational — in
particular the string fixed itself raises a ValueError, the Fixed policy being
reachable only through a numeric value — and after every successful set the
nugget accessor reads None exactly under the adaptive and fit policies and the
converted float exactly under the fixed policy. -/
theorem nugget_setter_characterization (gp : GaussianProcessGPU) (v : PyObj) :
    ((∃ g, set_nugget gp v = Except.ok g) ↔
      (v = PyObj.pystr "adaptive" ∨ v = PyObj.pystr "fit" ∨
        ∃ q, v.toFloatQ = some q ∧ 0 ≤ q)) ∧
    (∃ m, set_nugget gp (PyObj.pystr "fixed") = Except.error (PyErr.valueError m)) ∧
    (∀ g, set_nugget gp v = Except.ok g →
      ((g.nugget = Option.none ↔
          (g.nug_type = NuggetType.adaptive ∨ g.nug_type = NuggetType.fit)) ∧
       ∀ q, v.toFloatQ = some q → g.nug_type = NuggetType.fixed ∧ g.nugget = some q)) := by
  refine ⟨?_, ⟨nugStrMsg, by simp [set_nugget, set_nugget_val, Except.map]⟩, ?_⟩
  · cases v with
    | pystr s =>
        by_cases ha : s = "adaptive"
        · simp [set_nugget, set_nugget_val, ha, Except.map, PyObj.toFloatQ]
        · by_cases hf : s = "fit"
          · simp [set_nugget, set_nugget_val, ha, hf, Except.map, PyObj.toFloatQ]
          · simp [set_nugget, set_nugget_val, ha, hf, Except.map, PyObj.toFloatQ]
    | pyfloat q =>
        by_cases hq : q < 0
        · simp [set_nugget, set_nugget_val, hq, Except.map, PyObj.toFloatQ, not_le.mpr hq]
        · simp [set_nugget, set_nugget_val, hq, Except.map, PyObj.toFloatQ, not_lt.mp hq]
    | pybool b =>
        cases b <;> norm_num [set_nugget, set_nugget_val, Except.map, PyObj.toFloatQ]
    | pyint n =>
        by_cases hn : (n : ℚ) < 0
        · simp [set_nugget, set_nugget_val, hn, Except.map, PyObj.toFloatQ, not_le.mpr hn]
        · simp [set_nugget, set_nugget_val, hn, Except.map, PyObj.toFloatQ, not_lt.mp hn]
    | none => simp [set_nugget, set_nugget_val, Except.map, PyObj.toFloatQ]
    | pylist len => simp [set_nugget, set_nugget_val, Except.map, PyObj.toFloatQ]
    | sqExpKernel => simp [set_nugget, set_nugget_val, Except.map, PyObj.toFloatQ]
    | matern52Kernel => simp [set_nugget, set_nugget_val, Except.map, PyObj.toFloatQ]
    | meanBase => simp [set_nugget, set_nugget_val, Except.map, PyObj.toFloatQ]
  · intro g hg
    cases v with
    | pystr s =>
        by_cases ha : s = "adaptive"
        · simp [set_nugget, set_nugget_val, ha, Except.map] at hg
          subst hg
          simp [GaussianProcessGPU.nugget, PyObj.toFloatQ]
        · by_cases hf : s = "fit"
          · simp [set_nugget, set_nugget_val, ha, hf, Except.map] at hg
            subst hg
            simp [GaussianProcessGPU.nugget, PyObj.toFloatQ]
          · simp [set_nugget, set_nugget_val, ha, hf, Except.map] at hg
    | pyfloat q =>
        by_cases hq : q < 0
        · simp [set_nugget, set_nugget_val, hq, Except.map] at hg
        · simp [set_nugget, set_nugget_val, hq, Except.map] at hg
          subst hg
          simp [GaussianProcessGPU.nugget, PyObj.toFloatQ]
    | pybool b =>
        cases b <;> norm_num [set_nugget, set_nugget_val, Except.map, PyObj.toFloatQ] at hg <;>
          subst hg <;> simp [GaussianProcessGPU.nugget, PyObj.toFloatQ]
    | pyint n =>
        by_cases hn : (n : ℚ) < 0
        · simp [set_nugget, set_nugget_val, hn, Except.map, PyObj.toFloatQ] at hg
        · simp [set_nugget, set_nugget_val, hn, Except.map, PyObj.toFloatQ] at hg
          subst hg
          simp [GaussianProcessGPU.nugget, PyObj.toFloatQ]
    | none => simp [set_nugget, set_nugget_val, Except.map, PyObj.toFloatQ] at hg
    | pylist len => simp [set_nugget, set_nugget_val, Except.map, PyObj.toFloatQ] at hg
    | sqExpKernel => simp [set_nugget, set_nugget_val, Except.map, PyObj.toFloatQ] at hg
    | matern52Kernel => simp [set_nugget, set_nugget_val, Except.map, PyObj.toFloatQ] at hg
    | meanBase => simp [set_nugget, set_nugget_val, Except.map, PyObj.toFloatQ] at hg

/-- C10 witness: setting the nugget property of the demo emulator to the float
3/2 succeeds, selects the Fixed policy, and the accessor reads back 3/2. -/
theorem nugget_setter_characterization_witness :
    set_nugget gpDemoUnfit (PyObj.pyfloat (3 / 2)) = Except.ok gpDemoFixed ∧
      gpDemoFixed.nug_type = NuggetType.fixed ∧ gpDemoFixed.nugget = some (3 / 2) := by
  have hok : set_nugget gpDemoUnfit (PyObj.pyfloat (3 / 2)) = Except.ok gpDemoFixed := by
    norm_num [set_nugget, set_nugget_val, Except.map, gpDemoFixed]
  have h := ((nugget_setter_characterization gpDemoUnfit (PyObj.pyfloat (3 / 2))).2.2
    gpDemoFixed hok).2 (3 / 2) rfl
  exact ⟨hok, h.1, h.2⟩
